import Mathlib

/-!
Verification of the Contextual Retrieval and Pattern-Mining Engine of the
sovera-lab repository (files gen-bi/data-generator/api/rag-api.py and
gen-bi/data-generator/api/rag-api-extended-patterns.py), as a shallow
embedding in Lean.

Modelling conventions:
* UUIDs are modelled as natural numbers, timestamps as integers,
  SQL TEXT as String, NUMERIC and similarity scores as rationals.
* The embedding provider and the vector-distance operator of the store are
  external collaborators; they are passed in as parameters (a query vector
  and a distance function).  Upstream failures (embedding provider or store
  down) are outside the embedded logic.
* Each SQL query is translated clause by clause: joins become list
  products, WHERE becomes filters, GROUP BY becomes deduplicated key lists,
  ORDER BY becomes a stable sort on the fetched row order (SQL fixes only
  the sort keys; ties are returned in store order).
* Rational arithmetic is expressed through Rat.divInt-based helpers
  (qadd, qmul, ...) because the standard Rat operations are marked
  irreducible and do not evaluate inside decide; bridge lemmas identify
  the helpers with the standard field operations.
-/

/-! ### Reducible rational arithmetic -/

/-- Addition on rationals, written so that the kernel can evaluate it. -/
def qadd (a b : ℚ) : ℚ := Rat.divInt (a.num * b.den + b.num * a.den) (a.den * b.den)

/-- Multiplication on rationals, written so that the kernel can evaluate it. -/
def qmul (a b : ℚ) : ℚ := Rat.divInt (a.num * b.num) (a.den * b.den)

/-- Division on rationals, written so that the kernel can evaluate it. -/
def qdiv (a b : ℚ) : ℚ := Rat.divInt (a.num * b.den) (a.den * b.num)

/-- Negation on rationals, written so that the kernel can evaluate it. -/
def qneg (a : ℚ) : ℚ := Rat.divInt (-a.num) a.den

/-- Subtraction on rationals, written so that the kernel can evaluate it. -/
def qsub (a b : ℚ) : ℚ := qadd a (qneg b)

/-- Sum of a list of rationals via qadd. -/
def qsum (l : List ℚ) : ℚ := l.foldr qadd 0

theorem qadd_eq (a b : ℚ) : qadd a b = a + b := by
  have ha : ((a.den : ℤ)) ≠ 0 := by exact_mod_cast a.den_nz
  have hb : ((b.den : ℤ)) ≠ 0 := by exact_mod_cast b.den_nz
  rw [qadd, ← Rat.divInt_add_divInt _ _ ha hb, Rat.num_divInt_den, Rat.num_divInt_den]

theorem qmul_eq (a b : ℚ) : qmul a b = a * b := by
  have ha : ((a.den : ℤ)) ≠ 0 := by exact_mod_cast a.den_nz
  have hb : ((b.den : ℤ)) ≠ 0 := by exact_mod_cast b.den_nz
  rw [qmul, ← Rat.divInt_mul_divInt _ _ ha hb, Rat.num_divInt_den, Rat.num_divInt_den]

theorem qdiv_eq (a b : ℚ) : qdiv a b = a / b := by
  rw [qdiv, ← Rat.divInt_div_divInt, Rat.num_divInt_den, Rat.num_divInt_den]

theorem qneg_eq (a : ℚ) : qneg a = -a := by
  rw [qneg, ← Rat.neg_divInt, Rat.num_divInt_den]

theorem qsub_eq (a b : ℚ) : qsub a b = a - b := by
  rw [qsub, qneg, ← Rat.neg_divInt, Rat.num_divInt_den, qadd_eq, sub_eq_add_neg]

theorem qsum_eq (l : List ℚ) : qsum l = l.sum := by
  induction l with
  | nil => rfl
  | cons a l ih => rw [qsum, List.foldr_cons, qadd_eq, List.sum_cons, ← ih]; rfl

/-! ### Data model

Shapes follow the tables created by the loader and the pydantic models of
the API (rag-api.py lines 27-49, postgres-loader.py lines 36-89).  The
interaction record additionally carries the next_steps text that the
extended-patterns queries read. -/

/-- Error kinds: the 404 response, the catch-all 500 produced by the blanket
except handler of every endpoint, and the InvalidRange kind named by the
design document (no code path constructs it). -/
inductive ApiError where
  | notFound : ApiError
  | internal : ApiError
  | invalidRange : ApiError
deriving DecidableEq, Repr

/-- A row of the document_embeddings table. -/
structure Document where
  source_type : String
  source_id : Nat
  content : String
  embedding : List ℚ
  metadata : List (String × String)
  created_at : Int
deriving DecidableEq, Repr

/-- A row of the interactions table (next_steps as read by the
objection-handling and suggestion queries). -/
structure Interaction where
  id : Nat
  customer_id : Nat
  type : String
  notes : String
  sentiment : String
  topics : List String
  next_steps : String
  created_at : Int
deriving DecidableEq, Repr

/-- A row of the opportunities table. -/
structure Opportunity where
  id : Nat
  customer_id : Nat
  status : String
  value : ℚ
  created_at : Int
deriving DecidableEq, Repr

/-- A row of the customers table (fields the queries read). -/
structure Customer where
  id : Nat
  company_name : String
  industry : String
  size : String
deriving DecidableEq, Repr

/-- The persistent store state visible to the engine. -/
structure Db where
  customers : List Customer
  interactions : List Interaction
  opportunities : List Opportunity
  documents : List Document
deriving DecidableEq, Repr

/-- The SearchResult response model of rag-api.py. -/
structure SearchResult where
  source_type : String
  source_id : Nat
  content : String
  similarity : ℚ
  metadata : List (String × String)
deriving DecidableEq, Repr

/-- The SearchResponse response model of rag-api.py. -/
structure SearchResponse where
  results : List SearchResult
  total : Nat
  query : String
deriving DecidableEq, Repr

/-- The ContextFilter request model of rag-api.py (min_similarity has the
pydantic default 0.5). -/
structure ContextFilter where
  customer_id : Option Nat := none
  start_date : Option Int := none
  end_date : Option Int := none
  source_types : Option (List String) := none
  min_similarity : ℚ := Rat.divInt 1 2
deriving DecidableEq, Repr

/-! ### Retrieval service (rag-api.py, semantic_search and contextual_search)

The query vector qv is the embedding of the query text (external provider)
and dist is the cosine-distance operator of the store; the SQL expression
1 - (embedding <=> qv) becomes qsub 1 (dist e qv).  The SQL ORDER BY
similarity DESC fixes only the similarity key, so the model sorts stably
over the store row order.  Neither endpoint has a validation failure path:
given a successful embedding call, both always return 200. -/

/-- The computed column 1 - (embedding <=> $1::vector). -/
def similarity (dist : List ℚ → List ℚ → ℚ) (qv : List ℚ) (d : Document) : ℚ :=
  qsub 1 (dist d.embedding qv)

/-- WHERE clause of semantic_search: similarity threshold always, plus
source_type equality when the argument is truthy (non-null, non-empty). -/
def semantic_passes (dist : List ℚ → List ℚ → ℚ) (qv : List ℚ)
    (source_type : Option String) (min_similarity : ℚ) (d : Document) : Bool :=
  decide (min_similarity ≤ similarity dist qv d) &&
    (match source_type with
     | none => true
     | some st => st.isEmpty || d.source_type == st)

/-- WHERE clause of contextual_search, from the ContextFilter: each clause
is appended only when its python value is truthy; in particular the date
clause needs both bounds and the source_types clause a non-empty list. -/
def contextual_passes (dist : List ℚ → List ℚ → ℚ) (qv : List ℚ)
    (context : ContextFilter) (d : Document) : Bool :=
  decide (context.min_similarity ≤ similarity dist qv d) &&
    (match context.customer_id with
     | none => true
     | some cid => d.source_id == cid) &&
    (match context.start_date, context.end_date with
     | some s, some e => decide (s ≤ d.created_at) && decide (d.created_at ≤ e)
     | _, _ => true) &&
    (match context.source_types with
     | none => true
     | some l => l.isEmpty || l.contains d.source_type)

/-- ORDER BY similarity DESC: stable sort of the fetched rows. -/
def rank_rows (dist : List ℚ → List ℚ → ℚ) (qv : List ℚ) (rows : List Document) :
    List Document :=
  rows.insertionSort (fun a b => similarity dist qv b ≤ similarity dist qv a)

/-- SELECT projection of both search queries. -/
def to_search_result (dist : List ℚ → List ℚ → ℚ) (qv : List ℚ) (d : Document) :
    SearchResult :=
  { source_type := d.source_type
    source_id := d.source_id
    content := d.content
    similarity := similarity dist qv d
    metadata := d.metadata }

/-- Rows returned by the semantic_search query including ORDER BY and LIMIT. -/
def semantic_rows (dist : List ℚ → List ℚ → ℚ) (table : List Document) (qv : List ℚ)
    (source_type : Option String) (limit : Nat) (min_similarity : ℚ) :
    List SearchResult :=
  ((rank_rows dist qv (table.filter (semantic_passes dist qv source_type min_similarity))).take
    limit).map (to_search_result dist qv)

/-- POST /search/semantic.  total is the length of the fetched row list. -/
def semantic_search (dist : List ℚ → List ℚ → ℚ) (table : List Document) (query : String)
    (qv : List ℚ) (source_type : Option String) (limit : Nat) (min_similarity : ℚ) :
    Except ApiError SearchResponse :=
  Except.ok
    { results := semantic_rows dist table qv source_type limit min_similarity
      total := (semantic_rows dist table qv source_type limit min_similarity).length
      query := query }

/-- Rows returned by the contextual_search query including ORDER BY and LIMIT. -/
def contextual_rows (dist : List ℚ → List ℚ → ℚ) (table : List Document) (qv : List ℚ)
    (context : ContextFilter) (limit : Nat) : List SearchResult :=
  ((rank_rows dist qv (table.filter (contextual_passes dist qv context))).take
    limit).map (to_search_result dist qv)

/-- POST /search/contextual.  total is the length of the fetched row list. -/
def contextual_search (dist : List ℚ → List ℚ → ℚ) (table : List Document) (query : String)
    (qv : List ℚ) (context : ContextFilter) (limit : Nat) :
    Except ApiError SearchResponse :=
  Except.ok
    { results := contextual_rows dist table qv context limit
      total := (contextual_rows dist table qv context limit).length
      query := query }

/-- Decidable equality for Except values, so that concrete endpoint results
can be checked by evaluation. -/
def exceptDecEq {ε α : Type} [DecidableEq ε] [DecidableEq α] :
    (a b : Except ε α) → Decidable (a = b)
  | Except.ok a, Except.ok b =>
    match decEq a b with
    | isTrue h => isTrue (by rw [h])
    | isFalse h => isFalse (fun hh => h (Except.ok.inj hh))
  | Except.ok _, Except.error _ => isFalse (fun hh => Except.noConfusion hh)
  | Except.error _, Except.ok _ => isFalse (fun hh => Except.noConfusion hh)
  | Except.error a, Except.error b =>
    match decEq a b with
    | isTrue h => isTrue (by rw [h])
    | isFalse h => isFalse (fun hh => h (Except.error.inj hh))

instance {ε α : Type} [DecidableEq ε] [DecidableEq α] : DecidableEq (Except ε α) :=
  exceptDecEq

/-! ### Generic facts about the ranked row pipeline -/

theorem mem_ranked_rows {dist : List ℚ → List ℚ → ℚ} {qv : List ℚ}
    {passes : Document → Bool} {table : List Document} {limit : Nat} {r : SearchResult}
    (h : r ∈ ((rank_rows dist qv (table.filter passes)).take limit).map
          (to_search_result dist qv)) :
    ∃ d, (d ∈ table ∧ passes d = true) ∧ r = to_search_result dist qv d := by
  obtain ⟨d, hd, hfd⟩ := List.mem_map.mp h
  have hd₂ : d ∈ rank_rows dist qv (table.filter passes) := List.take_subset _ _ hd
  have hd₃ : d ∈ table.filter passes :=
    ((List.perm_insertionSort _ _).mem_iff).mp hd₂
  obtain ⟨hmem, hp⟩ := List.mem_filter.mp hd₃
  exact ⟨d, ⟨hmem, hp⟩, hfd.symm⟩

theorem sorted_ranked_rows (dist : List ℚ → List ℚ → ℚ) (qv : List ℚ)
    (rows : List Document) (limit : Nat) :
    List.Sorted (fun a b : SearchResult => b.similarity ≤ a.similarity)
      (((rank_rows dist qv rows).take limit).map (to_search_result dist qv)) := by
  haveI : IsTotal Document (fun a b => similarity dist qv b ≤ similarity dist qv a) :=
    ⟨fun a b => le_total (similarity dist qv b) (similarity dist qv a)⟩
  haveI : IsTrans Document (fun a b => similarity dist qv b ≤ similarity dist qv a) :=
    ⟨fun _ _ _ h₁ h₂ => le_trans h₂ h₁⟩
  have hs : List.Sorted (fun a b => similarity dist qv b ≤ similarity dist qv a)
      (rank_rows dist qv rows) := List.sorted_insertionSort _ rows
  have ht : List.Sorted (fun a b => similarity dist qv b ≤ similarity dist qv a)
      ((rank_rows dist qv rows).take limit) :=
    List.Pairwise.sublist (List.take_sublist _ _) hs
  exact List.pairwise_map.mpr ht

theorem length_ranked_rows_le (dist : List ℚ → List ℚ → ℚ) (qv : List ℚ)
    (rows : List Document) (limit : Nat) :
    (((rank_rows dist qv rows).take limit).map (to_search_result dist qv)).length ≤ limit := by
  rw [List.length_map, List.length_take]
  exact min_le_left _ _

/-! ### Concrete fixture for the retrieval claims -/

/-- A degenerate store distance: every document is at distance zero, hence
similarity one; used to build concrete witness calls. -/
def exDist : List ℚ → List ℚ → ℚ := fun _ _ => 0

/-- Fixture document created at time 0. -/
def docA : Document :=
  { source_type := "interaction", source_id := 1, content := "pricing call"
    embedding := [], metadata := [], created_at := 0 }

/-- Fixture document created at time 10, later than docA. -/
def docB : Document :=
  { source_type := "interaction", source_id := 2, content := "pricing mail"
    embedding := [], metadata := [], created_at := 10 }

/-- Fixture table in store row order: the older document first. -/
def exTable : List Document := [docA, docB]

/-- Search result row for docA under exDist. -/
def resA : SearchResult :=
  { source_type := "interaction", source_id := 1, content := "pricing call"
    similarity := 1, metadata := [] }

/-- Search result row for docB under exDist. -/
def resB : SearchResult :=
  { source_type := "interaction", source_id := 2, content := "pricing mail"
    similarity := 1, metadata := [] }

/-! ### Claims C1, C2, C6, C7, C10 -/

/-- C1 (counterexample): a contextual_search call whose filter carries only
start_date (no end_date) does not fail with InvalidRange or any other
error; it succeeds and even returns a document created before the given
start bound, because the one-sided clause is dropped. -/
theorem contextual_search_one_sided_start_date_succeeds :
    contextual_search exDist [docA] "q" [] { start_date := some 5 } 5 =
      Except.ok { results := [resA], total := 1, query := "q" } ∧
    contextual_search exDist [docA] "q" [] { start_date := some 5 } 5 ≠
      Except.error ApiError.invalidRange ∧
    contextual_search exDist [docA] "q" [] { start_date := some 5 } 5 ≠
      Except.error ApiError.notFound ∧
    contextual_search exDist [docA] "q" [] { start_date := some 5 } 5 ≠
      Except.error ApiError.internal ∧
    docA.created_at < 5 := by
  refine ⟨by decide, by decide, by decide, by decide, by decide⟩

/-- C1 (amended): when at most one of start_date and end_date is set, the
date clause is silently dropped: the call succeeds and behaves exactly as
the same call with no date bounds at all. -/
theorem contextual_search_one_sided_range_ignored :
    ∀ (dist : List ℚ → List ℚ → ℚ) (table : List Document) (query : String)
      (qv : List ℚ) (context : ContextFilter) (limit : Nat),
      context.start_date = none ∨ context.end_date = none →
      contextual_search dist table query qv context limit =
        contextual_search dist table query qv
          { context with start_date := none, end_date := none } limit := by
  intro dist table query qv context limit h
  obtain ⟨cid, sd, ed, st, ms⟩ := context
  rcases h with h | h
  · cases h
    cases ed <;> rfl
  · cases h
    cases sd <;> rfl

/-- C1 (witness for the amended claim): concrete call with only start_date
set, equal to the call without date bounds. -/
theorem contextual_search_one_sided_range_ignored_witness :
    ((({ start_date := some 5 } : ContextFilter).start_date = none ∨
      ({ start_date := some 5 } : ContextFilter).end_date = none) ∧
     contextual_search exDist [docA] "q" [] { start_date := some 5 } 5 =
       contextual_search exDist [docA] "q" []
         { ({ start_date := some 5 } : ContextFilter) with
            start_date := none, end_date := none } 5) :=
  ⟨Or.inr rfl,
   contextual_search_one_sided_range_ignored exDist [docA] "q" []
     { start_date := some 5 } 5 (Or.inr rfl)⟩

/-- C2 (counterexample): a successful semantic_search call returning two
results of equal similarity with the older document first: the store order
is kept, the claimed most-recent-first tie-break does not hold. -/
theorem search_equal_similarity_order_counterexample :
    semantic_search exDist exTable "q" [] none 5 (Rat.divInt 1 2) =
      Except.ok { results := [resA, resB], total := 2, query := "q" } ∧
    resA.similarity = resB.similarity ∧
    docA.source_id = resA.source_id ∧ docB.source_id = resB.source_id ∧
    docA.created_at < docB.created_at := by
  refine ⟨by decide, by decide, by decide, by decide, by decide⟩

/-- C2 (amended): results of every successful semantic_search or
contextual_search call are sorted by similarity in descending order (the
relative order of equal-similarity results is whatever the store returned,
not a created_at tie-break). -/
theorem search_results_sorted_by_similarity :
    ∀ (dist : List ℚ → List ℚ → ℚ) (table : List Document) (query : String)
      (qv : List ℚ) (source_type : Option String) (context : ContextFilter)
      (limit : Nat) (m : ℚ) (resp₁ resp₂ : SearchResponse),
      semantic_search dist table query qv source_type limit m = Except.ok resp₁ →
      contextual_search dist table query qv context limit = Except.ok resp₂ →
      List.Sorted (fun a b : SearchResult => b.similarity ≤ a.similarity) resp₁.results ∧
      List.Sorted (fun a b : SearchResult => b.similarity ≤ a.similarity) resp₂.results := by
  intro dist table query qv source_type context limit m resp₁ resp₂ h₁ h₂
  have e₁ : resp₁.results = semantic_rows dist table qv source_type limit m := by
    cases Except.ok.inj h₁; rfl
  have e₂ : resp₂.results = contextual_rows dist table qv context limit := by
    cases Except.ok.inj h₂; rfl
  rw [e₁, e₂]
  exact ⟨sorted_ranked_rows dist qv _ limit, sorted_ranked_rows dist qv _ limit⟩

/-- C2 (witness): the sortedness statement evaluated on a concrete call. -/
theorem search_results_sorted_by_similarity_witness :
    (semantic_search exDist exTable "q" [] none 5 (Rat.divInt 1 2) =
       Except.ok { results := [resA, resB], total := 2, query := "q" } ∧
     contextual_search exDist exTable "q" [] {} 5 =
       Except.ok { results := [resA, resB], total := 2, query := "q" } ∧
     (List.Sorted (fun a b : SearchResult => b.similarity ≤ a.similarity)
        (SearchResponse.mk [resA, resB] 2 "q").results ∧
      List.Sorted (fun a b : SearchResult => b.similarity ≤ a.similarity)
        (SearchResponse.mk [resA, resB] 2 "q").results)) :=
  ⟨by decide, by decide,
   search_results_sorted_by_similarity exDist exTable "q" [] none {} 5
     (Rat.divInt 1 2) (SearchResponse.mk [resA, resB] 2 "q")
     (SearchResponse.mk [resA, resB] 2 "q") (by decide) (by decide)⟩

/-- C6: every result of a successful semantic_search call has similarity at
least the requested threshold, and every result of a successful
contextual_search call has similarity at least the min_similarity of its
ContextFilter (0.5 when the field was omitted, by the model default). -/
theorem search_min_similarity_respected :
    ∀ (dist : List ℚ → List ℚ → ℚ) (table : List Document) (query : String)
      (qv : List ℚ) (source_type : Option String) (context : ContextFilter)
      (limit : Nat) (m : ℚ) (resp₁ resp₂ : SearchResponse),
      semantic_search dist table query qv source_type limit m = Except.ok resp₁ →
      contextual_search dist table query qv context limit = Except.ok resp₂ →
      (∀ r ∈ resp₁.results, m ≤ r.similarity) ∧
      (∀ r ∈ resp₂.results, context.min_similarity ≤ r.similarity) := by
  intro dist table query qv source_type context limit m resp₁ resp₂ h₁ h₂
  have e₁ : resp₁.results = semantic_rows dist table qv source_type limit m := by
    cases Except.ok.inj h₁; rfl
  have e₂ : resp₂.results = contextual_rows dist table qv context limit := by
    cases Except.ok.inj h₂; rfl
  constructor
  · intro r hr
    rw [e₁] at hr
    obtain ⟨d, ⟨_, hp⟩, hrd⟩ := mem_ranked_rows hr
    have : decide (m ≤ similarity dist qv d) = true := by
      have := Bool.and_elim_left hp
      exact this
    have hle : m ≤ similarity dist qv d := of_decide_eq_true this
    rw [hrd]
    exact hle
  · intro r hr
    rw [e₂] at hr
    obtain ⟨d, ⟨_, hp⟩, hrd⟩ := mem_ranked_rows hr
    have h₀ : decide (context.min_similarity ≤ similarity dist qv d) = true := by
      have h₁ := Bool.and_elim_left hp
      have h₂ := Bool.and_elim_left h₁
      have h₃ := Bool.and_elim_left h₂
      exact h₃
    have hle : context.min_similarity ≤ similarity dist qv d := of_decide_eq_true h₀
    rw [hrd]
    exact hle

/-- C6 (witness): the threshold statement evaluated on a concrete call. -/
theorem search_min_similarity_respected_witness :
    (semantic_search exDist exTable "q" [] none 5 (Rat.divInt 1 2) =
       Except.ok { results := [resA, resB], total := 2, query := "q" } ∧
     contextual_search exDist exTable "q" [] {} 5 =
       Except.ok { results := [resA, resB], total := 2, query := "q" } ∧
     ((∀ r ∈ (SearchResponse.mk [resA, resB] 2 "q").results,
         Rat.divInt 1 2 ≤ r.similarity) ∧
      (∀ r ∈ (SearchResponse.mk [resA, resB] 2 "q").results,
         ({} : ContextFilter).min_similarity ≤ r.similarity))) :=
  ⟨by decide, by decide,
   search_min_similarity_respected exDist exTable "q" [] none {} 5
     (Rat.divInt 1 2) (SearchResponse.mk [resA, resB] 2 "q")
     (SearchResponse.mk [resA, resB] 2 "q") (by decide) (by decide)⟩

/-- C7: a successful semantic_search or contextual_search call returns at
most limit results, and its total field is exactly the number of results
actually returned. -/
theorem search_limit_and_total :
    ∀ (dist : List ℚ → List ℚ → ℚ) (table : List Document) (query : String)
      (qv : List ℚ) (source_type : Option String) (context : ContextFilter)
      (limit : Nat) (m : ℚ) (resp₁ resp₂ : SearchResponse),
      semantic_search dist table query qv source_type limit m = Except.ok resp₁ →
      contextual_search dist table query qv context limit = Except.ok resp₂ →
      (resp₁.results.length ≤ limit ∧ resp₁.total = resp₁.results.length) ∧
      (resp₂.results.length ≤ limit ∧ resp₂.total = resp₂.results.length) := by
  intro dist table query qv source_type context limit m resp₁ resp₂ h₁ h₂
  cases Except.ok.inj h₁
  cases Except.ok.inj h₂
  exact ⟨⟨length_ranked_rows_le dist qv _ limit, rfl⟩,
         ⟨length_ranked_rows_le dist qv _ limit, rfl⟩⟩

/-- C7 (witness): limit and total statement evaluated on a concrete call. -/
theorem search_limit_and_total_witness :
    (semantic_search exDist exTable "q" [] none 5 (Rat.divInt 1 2) =
       Except.ok { results := [resA, resB], total := 2, query := "q" } ∧
     contextual_search exDist exTable "q" [] {} 5 =
       Except.ok { results := [resA, resB], total := 2, query := "q" } ∧
     (((SearchResponse.mk [resA, resB] 2 "q").results.length ≤ 5 ∧
       (SearchResponse.mk [resA, resB] 2 "q").total =
         (SearchResponse.mk [resA, resB] 2 "q").results.length) ∧
      ((SearchResponse.mk [resA, resB] 2 "q").results.length ≤ 5 ∧
       (SearchResponse.mk [resA, resB] 2 "q").total =
         (SearchResponse.mk [resA, resB] 2 "q").results.length))) :=
  ⟨by decide, by decide,
   search_limit_and_total exDist exTable "q" [] none {} 5 (Rat.divInt 1 2)
     (SearchResponse.mk [resA, resB] 2 "q") (SearchResponse.mk [resA, resB] 2 "q")
     (by decide) (by decide)⟩

/-- C10: a contextual_search call whose filter carries the empty
source_types list behaves exactly as the same call with source_types
omitted: both python values are falsy, so no source-type clause is added. -/
theorem contextual_search_empty_source_types :
    ∀ (dist : List ℚ → List ℚ → ℚ) (table : List Document) (query : String)
      (qv : List ℚ) (context : ContextFilter) (limit : Nat),
      contextual_search dist table query qv
        { context with source_types := some [] } limit =
      contextual_search dist table query qv
        { context with source_types := none } limit := by
  intro dist table query qv context limit
  obtain ⟨cid, sd, ed, st, ms⟩ := context
  rfl

/-! ### Pattern miner: successful patterns
(rag-api-extended-patterns.py, get_successful_patterns, lines 115-176)

The inner CTE joins interactions to opportunities on customer_id and to
customers on the interaction customer, keeps rows of the requested
industry not older than the cutoff, and groups them by
(type, notes, topics, sentiment, status); each group carries its size and
its won-average.  The HAVING clause keeps groups whose won-average is at
least min_success_rate.  The outer query then groups the retained CTE rows
by type: COUNT(*) counts retained groups (not underlying rows) and
AVG(success_rate) averages their rates; output is ordered by that count
descending. -/

/-- The SalesPattern response model. -/
structure SalesPattern where
  pattern_type : String
  frequency : Nat
  avg_success_rate : ℚ
  example_interactions : List (String × List String × String)
deriving DecidableEq, Repr

/-- Grouping key of the successful_interactions CTE. -/
structure SPKey where
  type : String
  notes : String
  topics : List String
  sentiment : String
  status : String
deriving DecidableEq, Repr

/-- Joined rows feeding the successful_interactions CTE. -/
def sp_rows (db : Db) (industry : String) (cutoff : Int) :
    List (Interaction × Opportunity) :=
  db.interactions.flatMap fun i =>
    db.opportunities.flatMap fun o =>
      db.customers.filterMap fun c =>
        if i.customer_id = o.customer_id ∧ i.customer_id = c.id ∧
            c.industry = industry ∧ cutoff ≤ i.created_at
        then some (i, o) else none

/-- GROUP BY key of a joined row. -/
def sp_key (r : Interaction × Opportunity) : SPKey :=
  ⟨r.1.type, r.1.notes, r.1.topics, r.1.sentiment, r.2.status⟩

/-- Distinct group keys of the CTE. -/
def sp_groups (db : Db) (industry : String) (cutoff : Int) : List SPKey :=
  ((sp_rows db industry cutoff).map sp_key).dedup

/-- COUNT(*) of one CTE group. -/
def sp_group_size (db : Db) (industry : String) (cutoff : Int) (k : SPKey) : Nat :=
  (sp_rows db industry cutoff).countP (fun r => sp_key r == k)

/-- AVG(CASE WHEN status = won THEN 1 ELSE 0 END) of one CTE group. -/
def sp_group_rate (db : Db) (industry : String) (cutoff : Int) (k : SPKey) : ℚ :=
  qdiv ((sp_rows db industry cutoff).countP
          (fun r => sp_key r == k && r.2.status == "won") : ℕ)
       (sp_group_size db industry cutoff k : ℕ)

/-- CTE rows retained by the HAVING clause. -/
def sp_retained (db : Db) (industry : String) (cutoff : Int) (min_rate : ℚ) :
    List SPKey :=
  (sp_groups db industry cutoff).filter
    (fun k => decide (min_rate ≤ sp_group_rate db industry cutoff k))

/-- Distinct types among the retained CTE rows (outer GROUP BY). -/
def sp_types (db : Db) (industry : String) (cutoff : Int) (min_rate : ℚ) :
    List String :=
  ((sp_retained db industry cutoff min_rate).map SPKey.type).dedup

/-- The pattern row the outer query produces for one type. -/
def sp_pattern_of_type (db : Db) (industry : String) (cutoff : Int) (min_rate : ℚ)
    (t : String) : SalesPattern :=
  { pattern_type := t
    frequency := ((sp_retained db industry cutoff min_rate).filter
        (fun k => k.type == t)).length
    avg_success_rate := qdiv
      (qsum (((sp_retained db industry cutoff min_rate).filter
          (fun k => k.type == t)).map (sp_group_rate db industry cutoff)))
      (((sp_retained db industry cutoff min_rate).filter
          (fun k => k.type == t)).length : ℕ)
    example_interactions := ((sp_retained db industry cutoff min_rate).filter
        (fun k => k.type == t)).map (fun k => (k.notes, k.topics, k.sentiment)) }

/-- GET /retrieval/successful-patterns/{industry}: one row per type among
the retained groups, ordered by frequency descending. -/
def get_successful_patterns (db : Db) (industry : String) (cutoff : Int)
    (min_rate : ℚ) : List SalesPattern :=
  ((sp_types db industry cutoff min_rate).map
      (sp_pattern_of_type db industry cutoff min_rate)).insertionSort
    (fun a b => b.frequency ≤ a.frequency)

/-! ### Pattern miner: objection handling
(rag-api-extended-patterns.py, get_objection_handling, lines 178-236)

The CTE joins interactions with a matching topic to opportunities of the
same customer with terminal status, grouped by
(notes, next_steps, sentiment, status).  The outer aggregate query always
returns exactly one row; over zero CTE rows its aggregates are all NULL.
The python code then checks the row for falsiness, which never holds for
an asyncpg record, so the intended 404 is unreachable; a NULL aggregate
makes the pydantic response validation raise, which the blanket except
turns into a 500.  (A 404 raised inside the try block would also be
re-raised as a 500 by that handler.) -/

/-- The ObjectionResponse response model: successful responses as
(response, next_steps, sentiment) rows. -/
structure ObjectionResponse where
  objection_type : String
  successful_responses : List (String × String × String)
  success_rate : ℚ
  recommended_approach : String
deriving DecidableEq, Repr

/-- GROUP BY key of the objection_responses CTE. -/
structure ORKey where
  notes : String
  next_steps : String
  sentiment : String
  outcome : String
deriving DecidableEq, Repr

/-- Joined rows feeding the objection_responses CTE. -/
def or_rows (db : Db) (objection_type : String) : List ORKey :=
  db.interactions.flatMap fun i =>
    db.opportunities.filterMap fun o =>
      if i.customer_id = o.customer_id ∧ objection_type ∈ i.topics ∧
          (o.status = "won" ∨ o.status = "lost")
      then some ⟨i.notes, i.next_steps, i.sentiment, o.status⟩ else none

/-- Distinct CTE group keys. -/
def or_groups (db : Db) (objection_type : String) : List ORKey :=
  (or_rows db objection_type).dedup

/-- Kernel-evaluable lexicographic comparison of strings (codepoint order),
used to model the WITHIN GROUP (ORDER BY notes) tie-break of MODE(). -/
def charListLtB : List Char → List Char → Bool
  | [], [] => false
  | [], _ :: _ => true
  | _ :: _, [] => false
  | a :: as, b :: bs =>
    if a.toNat < b.toNat then true
    else if b.toNat < a.toNat then false
    else charListLtB as bs

/-- String comparison on the underlying character lists. -/
def strLtB (a b : String) : Bool := charListLtB a.toList b.toList

/-- MODE() WITHIN GROUP (ORDER BY notes): the most frequent value, the
first one in the ordering when several are equally frequent. -/
def mode_notes (l : List String) : Option String :=
  l.foldl
    (fun best c =>
      match best with
      | none => some c
      | some b =>
        if l.count b < l.count c ∨ (l.count c = l.count b ∧ strLtB c b) then some c
        else some b)
    none

/-- The single row returned by the aggregate objection query: each field is
NULL (none) when its aggregate input is empty. -/
structure ObjectionAggRow where
  objection_type : String
  successful_responses : Option (List (String × String × String))
  success_rate : Option ℚ
  recommended_approach : Option String
deriving DecidableEq, Repr

/-- The aggregate row of the objection query (FILTER (WHERE outcome = won)
restricts two of the aggregates to the won groups). -/
def objection_agg_row (db : Db) (objection_type : String) : ObjectionAggRow :=
  { objection_type := objection_type
    successful_responses :=
      if ((or_groups db objection_type).filter (fun g => g.outcome == "won")).isEmpty
      then none
      else some (((or_groups db objection_type).filter (fun g => g.outcome == "won")).map
        (fun g => (g.notes, g.next_steps, g.sentiment)))
    success_rate :=
      if (or_groups db objection_type).isEmpty then none
      else some (qdiv ((or_groups db objection_type).countP
          (fun g => g.outcome == "won") : ℕ) ((or_groups db objection_type).length : ℕ))
    recommended_approach :=
      mode_notes (((or_groups db objection_type).filter
        (fun g => g.outcome == "won")).map ORKey.notes) }

/-- GET /retrieval/objection-handling/{objection_type}: the aggregate row
always exists, so the missing-row check never fires; NULL aggregate fields
fail response validation and surface as a 500 internal error. -/
def get_objection_handling (db : Db) (objection_type : String) :
    Except ApiError ObjectionResponse :=
  match (objection_agg_row db objection_type).successful_responses,
        (objection_agg_row db objection_type).success_rate,
        (objection_agg_row db objection_type).recommended_approach with
  | some s, some r, some m =>
    Except.ok { objection_type := objection_type, successful_responses := s
                success_rate := r, recommended_approach := m }
  | _, _, _ => Except.error ApiError.internal

/-! ### Claims C3, C4, C8 -/

/-- Filtering first does not change a filterMap whose function is none on
every dropped element. -/
theorem filterMap_filter_of_none {α β : Type} (p : α → Bool) (f : α → Option β)
    (h : ∀ a, p a = false → f a = none) (l : List α) :
    (l.filter p).filterMap f = l.filterMap f := by
  induction l with
  | nil => rfl
  | cons a l ih =>
    cases hp : p a with
    | false =>
      rw [List.filter_cons_of_neg (by simp [hp]), List.filterMap_cons, h a hp, ih]
    | true =>
      rw [List.filter_cons_of_pos hp, List.filterMap_cons, List.filterMap_cons, ih]

/-- The terminal-status test of the won-lost restriction. -/
def isTerminalB (o : Opportunity) : Bool :=
  o.status == "won" || o.status == "lost"

/-- Dropping non-terminal opportunities from the store does not change the
joined rows of the objection query: its join already restricts the
opportunity status to won or lost. -/
theorem or_rows_filter_terminal (db : Db) (t : String) :
    or_rows { db with opportunities := db.opportunities.filter isTerminalB } t =
      or_rows db t := by
  unfold or_rows
  have h : ∀ i : Interaction,
      ((db.opportunities.filter isTerminalB).filterMap
        (fun o => if i.customer_id = o.customer_id ∧ t ∈ i.topics ∧
            (o.status = "won" ∨ o.status = "lost")
          then some (ORKey.mk i.notes i.next_steps i.sentiment o.status) else none)) =
      (db.opportunities.filterMap
        (fun o => if i.customer_id = o.customer_id ∧ t ∈ i.topics ∧
            (o.status = "won" ∨ o.status = "lost")
          then some (ORKey.mk i.notes i.next_steps i.sentiment o.status) else none)) := by
    intro i
    apply filterMap_filter_of_none
    intro o hp
    have hw : o.status ≠ "won" ∧ o.status ≠ "lost" := by
      constructor <;> intro hthis <;> simp [isTerminalB, hthis] at hp
    rw [if_neg]
    rintro ⟨-, -, hst | hst⟩
    · exact hw.1 hst
    · exact hw.2 hst
  dsimp only
  simp only [h]

/-- Fixture customer for the pattern-mining claims. -/
def mkCust (n : Nat) : Customer :=
  { id := n, company_name := "c", industry := "Tech", size := "s" }

/-- Fixture interaction tagged with the pricing topic. -/
def mkInt (n cid : Nat) (no ns se : String) : Interaction :=
  { id := n, customer_id := cid, type := "call", notes := no, sentiment := se
    topics := ["pricing"], next_steps := ns, created_at := 0 }

/-- Fixture opportunity with a given status. -/
def mkOpp (n cid : Nat) (st : String) : Opportunity :=
  { id := n, customer_id := cid, status := st, value := 0, created_at := 0 }

/-- Fixture for C3: one customer, one won opportunity, and two interactions
with identical type, notes, topics and sentiment, which therefore fall into
one single CTE group of size two. -/
def exDb3 : Db :=
  { customers := [{ id := 1, company_name := "Acme", industry := "Tech", size := "small" }]
    interactions :=
      [{ id := 1, customer_id := 1, type := "call", notes := "n", sentiment := "positive"
         topics := ["t"], next_steps := "", created_at := 0 },
       { id := 2, customer_id := 1, type := "call", notes := "n", sentiment := "positive"
         topics := ["t"], next_steps := "", created_at := 0 }]
    opportunities :=
      [{ id := 1, customer_id := 1, status := "won", value := 0, created_at := 0 }]
    documents := [] }

/-- The single pattern row that exDb3 produces. -/
def spPatEx : SalesPattern :=
  { pattern_type := "call", frequency := 1, avg_success_rate := 1
    example_interactions := [("n", ["t"], "positive")] }

/-- C3 (counterexample): on exDb3 a single group of two joined rows is
retained, so the reported frequency is 1 (the number of retained groups)
even though the sum of the sizes of the retained groups of that type is 2:
frequency is the outer COUNT(*), not a row total. -/
theorem patterns_frequency_counts_groups_not_rows :
    get_successful_patterns exDb3 "Tech" 0 (Rat.divInt 6 10) = [spPatEx] ∧
    ((sp_retained exDb3 "Tech" 0 (Rat.divInt 6 10)).map
        (sp_group_size exDb3 "Tech" 0)).sum = 2 ∧
    spPatEx.frequency = 1 := by
  refine ⟨by decide, by decide, by decide⟩

/-- C3 (amended): every returned list has at most one pattern per type,
each pattern counts the retained groups of its type in frequency and
averages their success rates in avg_success_rate, and patterns are ordered
by frequency descending. -/
theorem get_successful_patterns_characterization :
    ∀ (db : Db) (industry : String) (cutoff : Int) (min_rate : ℚ),
      ((get_successful_patterns db industry cutoff min_rate).map
          SalesPattern.pattern_type).Nodup ∧
      (∀ p ∈ get_successful_patterns db industry cutoff min_rate,
        p.frequency = ((sp_retained db industry cutoff min_rate).filter
            (fun k => k.type == p.pattern_type)).length ∧
        p.avg_success_rate = (((sp_retained db industry cutoff min_rate).filter
            (fun k => k.type == p.pattern_type)).map
              (sp_group_rate db industry cutoff)).sum / (p.frequency : ℚ)) ∧
      List.Sorted (fun a b : SalesPattern => b.frequency ≤ a.frequency)
        (get_successful_patterns db industry cutoff min_rate) := by
  intro db industry cutoff min_rate
  refine ⟨?_, ?_, ?_⟩
  · have hperm : List.Perm (get_successful_patterns db industry cutoff min_rate)
        ((sp_types db industry cutoff min_rate).map
          (sp_pattern_of_type db industry cutoff min_rate)) :=
      List.perm_insertionSort _ _
    have hmap : ((sp_types db industry cutoff min_rate).map
        (sp_pattern_of_type db industry cutoff min_rate)).map
          SalesPattern.pattern_type = sp_types db industry cutoff min_rate := by
      rw [List.map_map]
      exact List.map_id _
    rw [(hperm.map SalesPattern.pattern_type).nodup_iff, hmap]
    exact List.nodup_dedup _
  · intro p hp
    have hp₂ : p ∈ (sp_types db industry cutoff min_rate).map
        (sp_pattern_of_type db industry cutoff min_rate) :=
      (List.perm_insertionSort _ _).mem_iff.mp hp
    obtain ⟨t, -, ht⟩ := List.mem_map.mp hp₂
    subst ht
    refine ⟨rfl, ?_⟩
    simp only [sp_pattern_of_type, qdiv_eq, qsum_eq]
  · haveI : IsTotal SalesPattern (fun a b => b.frequency ≤ a.frequency) :=
      ⟨fun a b => le_total b.frequency a.frequency⟩
    haveI : IsTrans SalesPattern (fun a b => b.frequency ≤ a.frequency) :=
      ⟨fun _ _ _ h₁ h₂ => le_trans h₂ h₁⟩
    exact List.sorted_insertionSort _ _

/-- C3 (witness for the amended claim): the characterization applied to the
concrete pattern produced by exDb3. -/
theorem get_successful_patterns_characterization_witness :
    (spPatEx ∈ get_successful_patterns exDb3 "Tech" 0 (Rat.divInt 6 10) ∧
     (spPatEx.frequency = ((sp_retained exDb3 "Tech" 0 (Rat.divInt 6 10)).filter
         (fun k => k.type == spPatEx.pattern_type)).length ∧
      spPatEx.avg_success_rate = (((sp_retained exDb3 "Tech" 0 (Rat.divInt 6 10)).filter
          (fun k => k.type == spPatEx.pattern_type)).map
            (sp_group_rate exDb3 "Tech" 0)).sum / (spPatEx.frequency : ℚ))) :=
  ⟨by decide,
   (get_successful_patterns_characterization exDb3 "Tech" 0 (Rat.divInt 6 10)).2.1
     spPatEx (by decide)⟩

/-- Fixture for C4: an entirely empty store. -/
def emptyDbC4 : Db :=
  { customers := [], interactions := [], opportunities := [], documents := [] }

/-- Fixture for C4: the store has data, but no interaction carries the
requested objection topic. -/
def exDb4 : Db :=
  { customers := [mkCust 1]
    interactions :=
      [{ id := 1, customer_id := 1, type := "call", notes := "n", sentiment := "neutral"
         topics := ["timeline"], next_steps := "", created_at := 0 }]
    opportunities := [mkOpp 1 1 "won"]
    documents := [] }

/-- C4: when no interaction matches the objection type, the endpoint does
not produce the 404 its own code intends: the aggregate row still exists
with NULL aggregates, the falsiness check never fires, and response
validation fails, so the caller receives a 500 internal error instead of
NotFound. -/
theorem get_objection_handling_no_match_internal_error :
    get_objection_handling exDb4 "pricing" = Except.error ApiError.internal ∧
    get_objection_handling emptyDbC4 "pricing" = Except.error ApiError.internal := by
  refine ⟨by decide, by decide⟩

/-- Fixture for C8: five customers, each with one pricing interaction and
one terminal opportunity (three won, two lost), pairwise distinct notes,
plus an extra in-flight opportunity that the query must ignore. -/
def exDb8 : Db :=
  { customers := [mkCust 1, mkCust 2, mkCust 3, mkCust 4, mkCust 5]
    interactions := [mkInt 1 1 "r1" "s1" "neutral", mkInt 2 2 "r2" "s2" "neutral",
      mkInt 3 3 "r3" "s3" "neutral", mkInt 4 4 "r4" "s4" "neutral",
      mkInt 5 5 "r5" "s5" "neutral"]
    opportunities := [mkOpp 1 1 "won", mkOpp 2 2 "won", mkOpp 3 3 "won",
      mkOpp 4 4 "lost", mkOpp 5 5 "lost", mkOpp 6 1 "negotiating"]
    documents := [] }

/-- Fixture for the C8 counterexample: again exactly three won and two lost
pricing interactions, but two of the won ones share notes, next_steps and
sentiment, so they collapse into one CTE group. -/
def cDb8 : Db :=
  { customers := [mkCust 1, mkCust 2, mkCust 3, mkCust 4]
    interactions := [mkInt 1 1 "na" "sa" "neutral", mkInt 2 1 "na" "sa" "neutral",
      mkInt 3 2 "nb" "sb" "neutral", mkInt 4 3 "nc" "sc" "neutral",
      mkInt 5 4 "nd" "sd" "neutral"]
    opportunities := [mkOpp 1 1 "won", mkOpp 2 2 "won", mkOpp 3 3 "lost",
      mkOpp 4 4 "lost"]
    documents := [] }

/-- C8 (counterexample): on cDb8 exactly three joined rows have outcome won
and two have outcome lost, yet the reported success_rate is 1/2 rather than
3/5, because the average runs over the deduplicated groups (two of the won
rows collapse). -/
theorem objection_success_rate_duplicate_notes_counterexample :
    ((or_rows cDb8 "pricing").countP (fun r => r.outcome == "won")) = 3 ∧
    ((or_rows cDb8 "pricing").countP (fun r => r.outcome == "lost")) = 2 ∧
    get_objection_handling cDb8 "pricing" =
      Except.ok { objection_type := "pricing"
                  successful_responses := [("na", "sa", "neutral"), ("nb", "sb", "neutral")]
                  success_rate := Rat.divInt 1 2
                  recommended_approach := "na" } ∧
    Rat.divInt 1 2 ≠ (3 : ℚ) / 5 := by
  refine ⟨by decide, by decide, by decide, ?_⟩
  rw [Rat.divInt_eq_div]
  norm_num

/-- C8 (amended): the success rate is computed only from interactions
joined to won or lost opportunities (removing in-flight opportunities from
the store changes nothing), and on a fixture whose three won and two lost
pricing interactions have pairwise distinct (notes, next_steps, sentiment)
the endpoint reports success_rate 3/5. -/
theorem objection_handling_terminal_only_and_fixture :
    (∀ (db : Db) (t : String),
      get_objection_handling
        { db with opportunities := db.opportunities.filter isTerminalB } t =
      get_objection_handling db t) ∧
    ((or_rows exDb8 "pricing").countP (fun r => r.outcome == "won")) = 3 ∧
    ((or_rows exDb8 "pricing").countP (fun r => r.outcome == "lost")) = 2 ∧
    get_objection_handling exDb8 "pricing" =
      Except.ok { objection_type := "pricing"
                  successful_responses :=
                    [("r1", "s1", "neutral"), ("r2", "s2", "neutral"), ("r3", "s3", "neutral")]
                  success_rate := (3 : ℚ) / 5
                  recommended_approach := "r1" } := by
  refine ⟨?_, by decide, by decide, ?_⟩
  · intro db t
    unfold get_objection_handling objection_agg_row or_groups
    rw [or_rows_filter_terminal]
  · have h35 : (3 : ℚ) / 5 = Rat.divInt 3 5 := by rw [Rat.divInt_eq_div]; norm_num
    rw [h35]
    decide

/-! ### Pattern miner: competitor mentions
(rag-api-extended-patterns.py, analyze_competitor_mentions, lines 238-298)

The endpoint declares a List CompetitorMention response, but its query can
never run: the sentiment_distribution expression nests the aggregate
COUNT(*) (and a window SUM over it) inside the aggregate jsonb_object_agg,
which PostgreSQL rejects when it analyzes the statement.  The fetch hence
raises on every call, whatever the store contains, and the blanket except
handler surfaces the failure as a 500 internal error. -/

/-- The CompetitorMention response model the endpoint declares. -/
structure CompetitorMention where
  competitor_name : String
  mention_count : Nat
  context : List (String × String × Int)
  sentiment_distribution : List (String × ℚ)
deriving DecidableEq, Repr

/-- GET /retrieval/competitor-analysis/{customer_id}: the store rejects the
statement itself (nested aggregate calls), so every call fails with the
500 produced by the blanket except handler; no input reaches any other
path. -/
def analyze_competitor_mentions (_db : Db) (_cid : Nat) (_cutoff : Int)
    (_min_mentions : Nat) : Except ApiError (List CompetitorMention) :=
  Except.error ApiError.internal

/-! ### Suggestion engine
(rag-api-extended-patterns.py, get_sales_suggestions, lines 300-408)

The context query loads the opportunity with its customer; the
recent-interactions array aggregates DISTINCT (type, sentiment, topics)
entries over a LEFT JOIN, so a customer without interactions yields one
all-NULL entry, and iterating its NULL topics raises, surfaced as a 500.
The similar-deals subquery selects next_steps of interactions joined to
other won opportunities within twenty percent of the value; its LIMIT 5
sits after the aggregation and has no effect.  A missing opportunity makes
fetchrow return no row: the 404 raised in the try block is swallowed by
the blanket except handler into a 500. -/

/-- The suggestions dictionary of the endpoint. -/
structure Suggestion where
  next_steps : List String
  talking_points : List String
  risk_factors : List String
  recommended_content : List String
deriving DecidableEq, Repr

/-- Entries of the recent_interactions jsonb array: one all-NULL entry when
the LEFT JOIN finds no interaction. -/
def recent_interaction_rows (db : Db) (o : Opportunity) :
    List (Option (String × String × List String)) :=
  if (db.interactions.filter (fun i => i.customer_id == o.customer_id)).isEmpty
  then [none]
  else ((db.interactions.filter (fun i => i.customer_id == o.customer_id)).map
    (fun i => some (i.type, i.sentiment, i.topics))).dedup

/-- The next_steps texts of the similar_successful_deals subquery. -/
def similar_deal_steps (db : Db) (oid : Nat) (o : Opportunity) : List String :=
  db.opportunities.flatMap fun so =>
    if so.status == "won" && so.id != oid &&
        decide (qmul o.value (Rat.divInt 4 5) ≤ so.value) &&
        decide (so.value ≤ qmul o.value (Rat.divInt 6 5))
    then (db.interactions.filter (fun si => si.customer_id == so.customer_id)).map
      Interaction.next_steps
    else []

/-- GET /retrieval/sales-suggestions/{opportunity_id}. -/
def get_sales_suggestions (db : Db) (oid : Nat) : Except ApiError Suggestion :=
  match (db.opportunities.filter (fun x => x.id == oid)).head? with
  | none => Except.error ApiError.internal
  | some o =>
    match (db.customers.filter (fun c => c.id == o.customer_id)).head? with
    | none => Except.error ApiError.internal
    | some _ =>
      if (recent_interaction_rows db o).any (fun r => r.isNone)
      then Except.error ApiError.internal
      else
        Except.ok
          { next_steps :=
              (if (((recent_interaction_rows db o).filterMap id).map
                    (fun x => x.2.1)).contains "negative"
               then ["Schedule follow-up meeting to address concerns"] else []) ++
              (similar_deal_steps db oid o).filter (fun s => !s.isEmpty)
            talking_points :=
              if (((recent_interaction_rows db o).filterMap id).flatMap
                    (fun x => x.2.2)).contains "pricing"
              then ["Emphasize ROI calculations", "Share relevant case studies",
                    "Discuss flexible payment options"]
              else []
            risk_factors :=
              if decide ((100000 : ℚ) < o.value)
              then ["High-value deal - ensure executive sponsorship"] else []
            recommended_content := [] }

/-! ### Claims C5, C9 -/

/-- Fixture document mentioning the competitor Acme. -/
def mkDoc (iid : Nat) (ct : String) : Document :=
  { source_type := "interaction", source_id := iid, content := ct
    embedding := [], metadata := [("competitor", "Acme")], created_at := 0 }

/-- Failing input for C5: three documents mentioning one competitor, tied
to three interactions of customer 1 inside the window - exactly the data
the competitor query is meant to aggregate. -/
def exDb5 : Db :=
  { customers := [mkCust 1]
    interactions :=
      [{ id := 1, customer_id := 1, type := "call", notes := "n1", sentiment := "positive"
         topics := [], next_steps := "", created_at := 0 },
       { id := 2, customer_id := 1, type := "call", notes := "n2", sentiment := "neutral"
         topics := [], next_steps := "", created_at := 0 },
       { id := 3, customer_id := 1, type := "call", notes := "n3", sentiment := "negative"
         topics := [], next_steps := "", created_at := 0 }]
    opportunities := []
    documents := [mkDoc 1 "x1", mkDoc 2 "x2", mkDoc 3 "x3"] }

/-- C5: no call to mine_competitor_mentions ever succeeds, so no returned
sentiment_distribution exists whose values could sum to 100 or to anything
else: the store rejects the nested-aggregate statement and the endpoint
answers a 500 internal error on every store, in particular on one holding
three genuine mentions of a competitor. -/
theorem analyze_competitor_mentions_never_succeeds :
    analyze_competitor_mentions exDb5 1 0 2 = Except.error ApiError.internal ∧
    (∀ (db : Db) (cid : Nat) (cutoff : Int) (minm : Nat),
      analyze_competitor_mentions db cid cutoff minm = Except.error ApiError.internal) :=
  ⟨rfl, fun _ _ _ _ => rfl⟩

/-- The high-value opportunity of the suggestion fixtures. -/
def opp9 : Opportunity :=
  { id := 1, customer_id := 1, status := "negotiating", value := 150000, created_at := 0 }

/-- Fixture for C9: one customer with one interaction, one opportunity of
value 150000 and one of value 50000. -/
def exDb9 : Db :=
  { customers := [mkCust 1]
    interactions := [mkInt 1 1 "n" "s" "neutral"]
    opportunities := [opp9,
      { id := 2, customer_id := 1, status := "negotiating", value := 50000, created_at := 0 }]
    documents := [] }

/-- Fixture for the C9 counterexample: the opportunity exists with value
150000 but its customer has no interactions. -/
def exDb9c : Db :=
  { customers := [mkCust 1]
    interactions := []
    opportunities := [opp9]
    documents := [] }

/-- C9 (counterexample): for an existing opportunity of value 150000 whose
customer has no interactions, the endpoint fails with a 500 (iterating the
NULL topics entry of the LEFT JOIN raises), so no risk factor is returned
at all. -/
theorem suggestions_no_interactions_error :
    (exDb9c.opportunities.filter (fun x => x.id == 1)).head? = some opp9 ∧
    opp9.value = 150000 ∧
    get_sales_suggestions exDb9c 1 = Except.error ApiError.internal := by
  refine ⟨by decide, ?_, by decide⟩
  show (150000 : ℚ) = 150000
  rfl

/-- C9 (amended): for every existing opportunity whose customer exists and
has at least one interaction, the call succeeds, includes the
executive-sponsorship risk factor when the value is 150000 (threshold
100000, strict), and omits it when the value is 50000. -/
theorem suggestions_high_value_risk_factor :
    ∀ (db : Db) (oid : Nat) (o : Opportunity),
      (db.opportunities.filter (fun x => x.id == oid)).head? = some o →
      (db.customers.filter (fun c => c.id == o.customer_id)).head?.isSome = true →
      (db.interactions.filter (fun i => i.customer_id == o.customer_id)) ≠ [] →
      ∃ s, get_sales_suggestions db oid = Except.ok s ∧
        (o.value = 150000 →
          "High-value deal - ensure executive sponsorship" ∈ s.risk_factors) ∧
        (o.value = 50000 →
          "High-value deal - ensure executive sponsorship" ∉ s.risk_factors) := by
  intro db oid o h1 h2 h3
  unfold get_sales_suggestions
  rw [h1]
  dsimp only
  obtain ⟨c, hc⟩ := Option.isSome_iff_exists.mp h2
  rw [hc]
  dsimp only
  have hie : (db.interactions.filter (fun i => i.customer_id == o.customer_id)).isEmpty
      = false := by
    cases hl : (db.interactions.filter (fun i => i.customer_id == o.customer_id)).isEmpty
    · rfl
    · exact absurd (List.isEmpty_iff.mp hl) h3
  have hany : (recent_interaction_rows db o).any (fun r => r.isNone) = false := by
    unfold recent_interaction_rows
    rw [hie]
    simp only [Bool.false_eq_true, if_false, List.any_eq_false]
    intro r hr
    obtain ⟨i, -, hri⟩ := List.mem_map.mp (List.mem_dedup.mp hr)
    rw [← hri]
    simp
  rw [if_neg (by simp [hany])]
  refine ⟨_, rfl, ?_, ?_⟩
  · intro hv
    simp only [hv]
    have : decide ((100000 : ℚ) < 150000) = true := by
      rw [decide_eq_true_eq]
      norm_num
    rw [this]
    simp
  · intro hv
    simp only [hv]
    have : decide ((100000 : ℚ) < 50000) = false := by
      rw [decide_eq_false_iff_not]
      norm_num
    rw [this]
    simp

/-- C9 (witness for the amended claim): the amended statement applied to
exDb9 and its value-150000 opportunity. -/
theorem suggestions_high_value_risk_factor_witness :
    ((exDb9.opportunities.filter (fun x => x.id == 1)).head? = some opp9 ∧
     (exDb9.customers.filter (fun c => c.id == opp9.customer_id)).head?.isSome = true ∧
     (exDb9.interactions.filter (fun i => i.customer_id == opp9.customer_id)) ≠ [] ∧
     ∃ s, get_sales_suggestions exDb9 1 = Except.ok s ∧
       (opp9.value = 150000 →
         "High-value deal - ensure executive sponsorship" ∈ s.risk_factors) ∧
       (opp9.value = 50000 →
         "High-value deal - ensure executive sponsorship" ∉ s.risk_factors)) :=
  ⟨by decide, by decide, by decide,
   suggestions_high_value_risk_factor exDb9 1 opp9 (by decide) (by decide) (by decide)⟩
